import Mathlib

/-!
# Dispatch boundary of the EST enrollment server (`pkg/server/api/endpoints.go`)

A shallow embedding of the five go-kit endpoints and of the endpoint registry.

* Go pointers (`*x509.Certificate`, `*x509.CertificateRequest`) are `Option`s,
  `nil` being `none`.
* A Go `error` is `Option GoError`, `nil` being `none`.
* A Go slice is a `List` (the nil slice and the empty slice are both `[]`).
* `interface{}` requests and responses are tagged sums (`Request`, `Response`).
* A Service method may have effects; it is a state-passing function over an
  arbitrary world state `σ`, and it is taken to return (a Service method that
  aborts or diverges is outside the model).
* The single-value type assertion `request.(T)` aborts the call when the dynamic
  type is not `T`; an endpoint call therefore ends in an `Outcome`, which is
  either a returned `(response, err)` pair or an abort.
-/

namespace Api

/-! ## External value types -/

/-- A `context.Context` value, identified by a number. -/
structure Context where
  id : Nat
  deriving DecidableEq, Repr

/-- A parsed `x509.Certificate`, identified by its DER bytes. -/
structure Certificate where
  der : List (Fin 256)
  deriving DecidableEq, Repr

/-- A parsed `x509.CertificateRequest`, identified by its DER bytes. -/
structure CertificateRequest where
  der : List (Fin 256)
  deriving DecidableEq, Repr

/-- A non-nil Go `error` value, identified by its message. -/
structure GoError where
  msg : String
  deriving DecidableEq, Repr

/-- The referent of the trailing argument of `Enroll`, `Reenroll` and
`ServerKeyGen`; every call site in `endpoints.go` passes `nil` there. -/
structure Aux where
  id : Nat
  deriving DecidableEq, Repr

/-! ## Request and response types (`endpoints.go`, lines 96-127) -/

/-- The `EnrollRequest` struct. -/
structure EnrollRequest where
  csr : Option CertificateRequest
  aps : String
  crt : Option Certificate
  deriving DecidableEq, Repr

/-- The `ReenrollRequest` struct. -/
structure ReenrollRequest where
  csr : Option CertificateRequest
  crt : Option Certificate
  deriving DecidableEq, Repr

/-- The `ServerKeyGenRequest` struct. -/
structure ServerKeyGenRequest where
  csr : Option CertificateRequest
  aps : String
  deriving DecidableEq, Repr

/-- The `HealthResponse` struct. -/
structure HealthResponse where
  Healthy : Bool
  Err : Option GoError
  deriving DecidableEq, Repr

/-- The `GetCasResponse` struct. -/
structure GetCasResponse where
  Certs : List (Option Certificate)
  deriving DecidableEq, Repr

/-- The `EnrollReenrollResponse` struct. -/
structure EnrollReenrollResponse where
  Cert : Option Certificate
  deriving DecidableEq, Repr

/-- The `ServerKeyGenResponse` struct. -/
structure ServerKeyGenResponse where
  Cert : Option Certificate
  Key : List (Fin 256)
  deriving DecidableEq, Repr

/-- The dynamically typed `request interface{}` of an endpoint: the nil interface,
one of the four request structs of this package, or a value of some other type
(named by `typeName`). -/
inductive Request where
  | nil
  | empty
  | enroll (r : EnrollRequest)
  | reenroll (r : ReenrollRequest)
  | serverKeyGen (r : ServerKeyGenRequest)
  | other (typeName : String)
  deriving DecidableEq, Repr

/-- The dynamically typed `response interface{}` of an endpoint. -/
inductive Response where
  | health (r : HealthResponse)
  | getCas (r : GetCasResponse)
  | enrollReenroll (r : EnrollReenrollResponse)
  | serverKeyGen (r : ServerKeyGenResponse)
  deriving DecidableEq, Repr

/-- How one endpoint call ends: it returns `(response, err)`, or the type
assertion on the request fails and the call aborts. -/
inductive Outcome where
  | ret (response : Response) (err : Option GoError)
  | castFailure (wanted : String)
  deriving DecidableEq, Repr

/-- The error of a returned outcome (`none` is Go's nil error); an aborted call
returns nothing. -/
def Outcome.err? : Outcome → Option (Option GoError)
  | .ret _ e => some e
  | .castFailure _ => none

/-- The response of a returned outcome. -/
def Outcome.response? : Outcome → Option Response
  | .ret r _ => some r
  | .castFailure _ => none

/-- The profile identifier a request value carries: the `aps` field of the structs
that have one. `ReenrollRequest` and `EmptyRequest` have no such field. -/
def Request.aps? : Request → Option String
  | .enroll r => some r.aps
  | .serverKeyGen r => some r.aps
  | _ => none

/-- The authenticating certificate a request value carries: the `crt` field of
the structs that have one. -/
def Request.crt? : Request → Option Certificate
  | .enroll r => r.crt
  | .reenroll r => r.crt
  | _ => none

/-! ## The Service interface -/

/-- Modelled from the spec: the `Service` interface is declared in another file of
the package. Its five methods and their arities are those of the call sites in
`endpoints.go`; the parameter and result types are read off the arguments passed
there and the response fields the results are stored in, and the third parameter
of `CACerts` is the optional authenticating certificate of the spec's operation
table. Each method is a state-passing function over the world state `σ`. -/
structure Service (σ : Type) where
  Health : Context → σ → Bool × σ
  CACerts : Context → String → Option Certificate → σ →
    (List (Option Certificate) × Option GoError) × σ
  Enroll : Context → Option CertificateRequest → String → Option Certificate →
    Option Aux → σ → (Option Certificate × Option GoError) × σ
  Reenroll : Context → Option Certificate → Option CertificateRequest → String →
    Option Aux → σ → (Option Certificate × Option GoError) × σ
  ServerKeyGen : Context → Option CertificateRequest → String → Option Aux → σ →
    (Option Certificate × List (Fin 256) × Option GoError) × σ

/-- The go-kit `endpoint.Endpoint` function type, over the world state `σ`. -/
abbrev Endpoint (σ : Type) := Context → Request → σ → Outcome × σ

/-! ## The five endpoint constructors (`endpoints.go`, lines 58-94) -/

/-- `MakeHealthEndpoint`: no assertion on the request. -/
def MakeHealthEndpoint {σ : Type} (s : Service σ) : Endpoint σ :=
  fun ctx _request st =>
    let (healthy, st1) := s.Health ctx st
    (Outcome.ret (Response.health { Healthy := healthy, Err := none }) none, st1)

/-- `MakeGetCAsEndpoint`: no assertion on the request; `CACerts` is called with
the literal arguments `""` and `nil`. -/
def MakeGetCAsEndpoint {σ : Type} (s : Service σ) : Endpoint σ :=
  fun ctx _request st =>
    let ((cas, err), st1) := s.CACerts ctx "" none st
    (Outcome.ret (Response.getCas { Certs := cas }) err, st1)

/-- `MakeEnrollEndpoint`. -/
def MakeEnrollEndpoint {σ : Type} (s : Service σ) : Endpoint σ :=
  fun ctx request st =>
    match request with
    | Request.enroll req =>
      let ((cas, err), st1) := s.Enroll ctx req.csr req.aps req.crt none st
      (Outcome.ret (Response.enrollReenroll { Cert := cas }) err, st1)
    | _ => (Outcome.castFailure "EnrollRequest", st)

/-- `MakeReenrollEndpoint`: the profile argument is the literal `""`. -/
def MakeReenrollEndpoint {σ : Type} (s : Service σ) : Endpoint σ :=
  fun ctx request st =>
    match request with
    | Request.reenroll req =>
      let ((cas, err), st1) := s.Reenroll ctx req.crt req.csr "" none st
      (Outcome.ret (Response.enrollReenroll { Cert := cas }) err, st1)
    | _ => (Outcome.castFailure "ReenrollRequest", st)

/-- `MakeServerKeyGenEndpoint`. -/
def MakeServerKeyGenEndpoint {σ : Type} (s : Service σ) : Endpoint σ :=
  fun ctx request st =>
    match request with
    | Request.serverKeyGen req =>
      let ((cas, key, err), st1) := s.ServerKeyGen ctx req.csr req.aps none st
      (Outcome.ret (Response.serverKeyGen { Cert := cas, Key := key }) err, st1)
    | _ => (Outcome.castFailure "ServerKeyGenRequest", st)

/-! ## The registry (`endpoints.go`, lines 12-56) -/

/-- The `Endpoints` struct. -/
structure Endpoints (σ : Type) where
  HealthEndpoint : Endpoint σ
  GetCAsEndpoint : Endpoint σ
  EnrollerEndpoint : Endpoint σ
  ReenrollerEndpoint : Endpoint σ
  ServerKeyGenEndpoint : Endpoint σ

/-- `MakeServerEndpoints`. The library function `opentracing.TraceServer` is the
parameter `traceServer`: given a tracer and a span name it yields a middleware. -/
def MakeServerEndpoints {σ τ : Type}
    (traceServer : τ → String → Endpoint σ → Endpoint σ)
    (s : Service σ) (otTracer : τ) : Endpoints σ :=
  let healthEndpoint := MakeHealthEndpoint s
  let healthEndpoint := traceServer otTracer "Health" healthEndpoint
  let getCasEndpoint := MakeGetCAsEndpoint s
  let getCasEndpoint := traceServer otTracer "GetCAs" getCasEndpoint
  let enrollEndpoint := MakeEnrollEndpoint s
  let enrollEndpoint := traceServer otTracer "Enroll" enrollEndpoint
  let reenrollEndpoint := MakeReenrollEndpoint s
  let reenrollEndpoint := traceServer otTracer "Reenroll" reenrollEndpoint
  let serverkeygenEndpoint := MakeServerKeyGenEndpoint s
  let serverkeygenEndpoint := traceServer otTracer "Serverkeygen" serverkeygenEndpoint
  { HealthEndpoint := healthEndpoint
    GetCAsEndpoint := getCasEndpoint
    EnrollerEndpoint := enrollEndpoint
    ReenrollerEndpoint := reenrollEndpoint
    ServerKeyGenEndpoint := serverkeygenEndpoint }

/-! ## A Service that records its invocations -/

/-- One Service method invocation together with the arguments it received. -/
inductive Call where
  | Health (ctx : Context)
  | CACerts (ctx : Context) (aps : String) (crt : Option Certificate)
  | Enroll (ctx : Context) (csr : Option CertificateRequest) (aps : String)
      (crt : Option Certificate) (r : Option Aux)
  | Reenroll (ctx : Context) (crt : Option Certificate)
      (csr : Option CertificateRequest) (aps : String) (r : Option Aux)
  | ServerKeyGen (ctx : Context) (csr : Option CertificateRequest) (aps : String)
      (r : Option Aux)
  deriving DecidableEq, Repr

/-- The Service `s` instrumented with a call log: every method appends one record
of itself and its arguments to the log and otherwise behaves as `s`. -/
def recording {σ : Type} (s : Service σ) : Service (σ × List Call) where
  Health := fun ctx st =>
    let (b, st1) := s.Health ctx st.1
    (b, (st1, st.2 ++ [Call.Health ctx]))
  CACerts := fun ctx aps crt st =>
    let (res, st1) := s.CACerts ctx aps crt st.1
    (res, (st1, st.2 ++ [Call.CACerts ctx aps crt]))
  Enroll := fun ctx csr aps crt r st =>
    let (res, st1) := s.Enroll ctx csr aps crt r st.1
    (res, (st1, st.2 ++ [Call.Enroll ctx csr aps crt r]))
  Reenroll := fun ctx crt csr aps r st =>
    let (res, st1) := s.Reenroll ctx crt csr aps r st.1
    (res, (st1, st.2 ++ [Call.Reenroll ctx crt csr aps r]))
  ServerKeyGen := fun ctx csr aps r st =>
    let (res, st1) := s.ServerKeyGen ctx csr aps r st.1
    (res, (st1, st.2 ++ [Call.ServerKeyGen ctx csr aps r]))

/-- The records an endpoint call on the instrumented Service adds, starting from
an empty log. -/
def callsOf {σ : Type} (mk : Service (σ × List Call) → Endpoint (σ × List Call))
    (s : Service σ) (ctx : Context) (request : Request) (st : σ) : List Call :=
  (mk (recording s) ctx request (st, [])).2.2

/-! ## Sample values and sample Services -/

/-- A sample context. -/
def ctx0 : Context := { id := 0 }

/-- A sample certificate signing request. -/
def csr0 : CertificateRequest := { der := [48, 130] }

/-- A sample certificate. -/
def crt0 : Certificate := { der := [48, 130, 1] }

/-- A second sample certificate. -/
def crt1 : Certificate := { der := [48, 130, 2] }

/-- A Service that issues `crt1` for whatever it is asked, never reports an error,
and returns an empty key from `ServerKeyGen`. Its state counts the calls. -/
def permissiveService : Service Nat where
  Health := fun _ n => (true, n + 1)
  CACerts := fun _ _ _ n => (([some crt0], none), n + 1)
  Enroll := fun _ _ _ _ _ n => ((some crt1, none), n + 1)
  Reenroll := fun _ _ _ _ _ n => ((some crt1, none), n + 1)
  ServerKeyGen := fun _ _ _ _ n => ((some crt1, [], none), n + 1)

/-- A Service whose `Enroll` and `Reenroll` return a certificate together with a
non-nil error. -/
def leakyService : Service Nat where
  Health := fun _ n => (false, n + 1)
  CACerts := fun _ _ _ n => (([], some { msg := "ProfileNotFound" }), n + 1)
  Enroll := fun _ _ _ _ _ n => ((some crt1, some { msg := "ProfileNotFound" }), n + 1)
  Reenroll := fun _ _ _ _ _ n =>
    ((some crt1, some { msg := "AuthenticationExpired" }), n + 1)
  ServerKeyGen := fun _ _ _ _ n =>
    ((none, [], some { msg := "KeyGenerationFailed" }), n + 1)

/-- A Service that follows the conventions of the spec: it rejects an absent CSR
and an unknown profile with an error and no certificate, and `ServerKeyGen`
returns a certificate only together with a non-empty key. -/
def strictService : Service Nat where
  Health := fun _ n => (true, n + 1)
  CACerts := fun _ aps _ n =>
    if aps = "" then (([some crt0], none), n + 1)
    else (([], some { msg := "ProfileNotFound" }), n + 1)
  Enroll := fun _ csr aps _ _ n =>
    match csr with
    | none => ((none, some { msg := "CSRInvalid" }), n + 1)
    | some _ =>
      if aps = "" then ((some crt1, none), n + 1)
      else ((none, some { msg := "ProfileNotFound" }), n + 1)
  Reenroll := fun _ crt csr _ _ n =>
    match crt, csr with
    | some _, some _ => ((some crt1, none), n + 1)
    | none, _ => ((none, some { msg := "AuthenticationInvalid" }), n + 1)
    | _, none => ((none, some { msg := "CSRInvalid" }), n + 1)
  ServerKeyGen := fun _ csr aps _ n =>
    match csr with
    | none => ((none, [], some { msg := "CSRInvalid" }), n + 1)
    | some _ =>
      if aps = "" then ((some crt1, [1, 2, 3], none), n + 1)
      else ((none, [], some { msg := "ProfileNotFound" }), n + 1)

/-- The five methods of the Service interface. -/
inductive Method where
  | Health
  | CACerts
  | Enroll
  | Reenroll
  | ServerKeyGen
  deriving DecidableEq, Repr

/-- The method a call record is for. -/
def Call.method : Call → Method
  | .Health _ => Method.Health
  | .CACerts _ _ _ => Method.CACerts
  | .Enroll _ _ _ _ _ => Method.Enroll
  | .Reenroll _ _ _ _ _ => Method.Reenroll
  | .ServerKeyGen _ _ _ _ => Method.ServerKeyGen

/-! ## Unfolding lemmas: each endpoint on the instrumented Service -/

/-- The Health endpoint over the instrumented Service: same outcome and state as
over the Service itself, plus one Health record. -/
theorem health_recording {σ : Type} (s : Service σ) (ctx : Context) (rq : Request)
    (st : σ) (log : List Call) :
    MakeHealthEndpoint (recording s) ctx rq (st, log) =
      ((MakeHealthEndpoint s ctx rq st).1,
        ((MakeHealthEndpoint s ctx rq st).2, log ++ [Call.Health ctx])) := rfl

/-- The GetCAs endpoint over the instrumented Service: same outcome and state,
plus one CACerts record with the literal arguments. -/
theorem getCAs_recording {σ : Type} (s : Service σ) (ctx : Context) (rq : Request)
    (st : σ) (log : List Call) :
    MakeGetCAsEndpoint (recording s) ctx rq (st, log) =
      ((MakeGetCAsEndpoint s ctx rq st).1,
        ((MakeGetCAsEndpoint s ctx rq st).2, log ++ [Call.CACerts ctx "" none])) := rfl

/-- The Enroll endpoint over the instrumented Service, on an EnrollRequest: same
outcome and state, plus one Enroll record. -/
theorem enroll_recording {σ : Type} (s : Service σ) (ctx : Context)
    (r : EnrollRequest) (st : σ) (log : List Call) :
    MakeEnrollEndpoint (recording s) ctx (Request.enroll r) (st, log) =
      ((MakeEnrollEndpoint s ctx (Request.enroll r) st).1,
        ((MakeEnrollEndpoint s ctx (Request.enroll r) st).2,
          log ++ [Call.Enroll ctx r.csr r.aps r.crt none])) := rfl

/-- The Reenroll endpoint over the instrumented Service, on a ReenrollRequest:
same outcome and state, plus one Reenroll record. -/
theorem reenroll_recording {σ : Type} (s : Service σ) (ctx : Context)
    (r : ReenrollRequest) (st : σ) (log : List Call) :
    MakeReenrollEndpoint (recording s) ctx (Request.reenroll r) (st, log) =
      ((MakeReenrollEndpoint s ctx (Request.reenroll r) st).1,
        ((MakeReenrollEndpoint s ctx (Request.reenroll r) st).2,
          log ++ [Call.Reenroll ctx r.crt r.csr "" none])) := rfl

/-- The ServerKeyGen endpoint over the instrumented Service, on a
ServerKeyGenRequest: same outcome and state, plus one ServerKeyGen record. -/
theorem serverKeyGen_recording {σ : Type} (s : Service σ) (ctx : Context)
    (r : ServerKeyGenRequest) (st : σ) (log : List Call) :
    MakeServerKeyGenEndpoint (recording s) ctx (Request.serverKeyGen r) (st, log) =
      ((MakeServerKeyGenEndpoint s ctx (Request.serverKeyGen r) st).1,
        ((MakeServerKeyGenEndpoint s ctx (Request.serverKeyGen r) st).2,
          log ++ [Call.ServerKeyGen ctx r.csr r.aps none])) := rfl

/-! ## C1, C2: error propagation -/

/-- C1: for every Service, context, state and well-typed request, the error
returned by the GetCAs, Enroll, Reenroll and ServerKeyGen endpoints is exactly
the error returned by the Service call the endpoint makes (CACerts, Enroll,
Reenroll, ServerKeyGen respectively): the same value, nil or not. -/
theorem C1_service_error_passed_through {σ : Type} (s : Service σ) (ctx : Context)
    (st : σ) :
    (∀ rq : Request,
      (MakeGetCAsEndpoint s ctx rq st).1.err? = some (s.CACerts ctx "" none st).1.2) ∧
    (∀ r : EnrollRequest,
      (MakeEnrollEndpoint s ctx (Request.enroll r) st).1.err? =
        some (s.Enroll ctx r.csr r.aps r.crt none st).1.2) ∧
    (∀ r : ReenrollRequest,
      (MakeReenrollEndpoint s ctx (Request.reenroll r) st).1.err? =
        some (s.Reenroll ctx r.crt r.csr "" none st).1.2) ∧
    (∀ r : ServerKeyGenRequest,
      (MakeServerKeyGenEndpoint s ctx (Request.serverKeyGen r) st).1.err? =
        some (s.ServerKeyGen ctx r.csr r.aps none st).1.2.2) :=
  ⟨fun _ => rfl, fun _ => rfl, fun _ => rfl, fun _ => rfl⟩

/-- C2: the Health endpoint never fails. For every Service, context, request of
any dynamic type and state, it returns a nil error and a HealthResponse whose
Healthy field is the boolean returned by the Service's Health for that context
and whose Err field is unset; no cast failure is possible. -/
theorem C2_health_never_fails {σ : Type} (s : Service σ) (ctx : Context)
    (rq : Request) (st : σ) :
    MakeHealthEndpoint s ctx rq st =
      (Outcome.ret (Response.health { Healthy := (s.Health ctx st).1, Err := none }) none,
        (s.Health ctx st).2) := rfl

/-! ## C3: a request without a CSR -/

/-- C3 fails as stated: on a request whose CSR is nil, each of the Enroll,
Reenroll and ServerKeyGen endpoints over the permissive Service returns a nil
error, and the Service method has been called once with the nil CSR. -/
theorem C3_absent_csr_reaches_service :
    (MakeEnrollEndpoint permissiveService ctx0
        (Request.enroll { csr := none, aps := "", crt := none }) 0).1.err? = some none ∧
    callsOf MakeEnrollEndpoint permissiveService ctx0
        (Request.enroll { csr := none, aps := "", crt := none }) 0 =
      [Call.Enroll ctx0 none "" none none] ∧
    (MakeReenrollEndpoint permissiveService ctx0
        (Request.reenroll { csr := none, crt := some crt0 }) 0).1.err? = some none ∧
    callsOf MakeReenrollEndpoint permissiveService ctx0
        (Request.reenroll { csr := none, crt := some crt0 }) 0 =
      [Call.Reenroll ctx0 (some crt0) none "" none] ∧
    (MakeServerKeyGenEndpoint permissiveService ctx0
        (Request.serverKeyGen { csr := none, aps := "" }) 0).1.err? = some none ∧
    callsOf MakeServerKeyGenEndpoint permissiveService ctx0
        (Request.serverKeyGen { csr := none, aps := "" }) 0 =
      [Call.ServerKeyGen ctx0 none "" none] :=
  ⟨rfl, rfl, rfl, rfl, rfl, rfl⟩

/-- C3 as amended: a request whose CSR is nil is not rejected by the dispatch
entry. Each of the Enroll, Reenroll and ServerKeyGen endpoints calls the
corresponding Service method exactly once, passing the nil CSR, and returns
exactly the error of that call; the request is rejected only if the Service
rejects it. -/
theorem C3_absent_csr_forwarded {σ : Type} (s : Service σ) (ctx : Context) (st : σ)
    (aps : String) (crt : Option Certificate) :
    (callsOf MakeEnrollEndpoint s ctx
        (Request.enroll { csr := none, aps := aps, crt := crt }) st =
      [Call.Enroll ctx none aps crt none] ∧
     (MakeEnrollEndpoint s ctx
        (Request.enroll { csr := none, aps := aps, crt := crt }) st).1.err? =
      some (s.Enroll ctx none aps crt none st).1.2) ∧
    (callsOf MakeReenrollEndpoint s ctx
        (Request.reenroll { csr := none, crt := crt }) st =
      [Call.Reenroll ctx crt none "" none] ∧
     (MakeReenrollEndpoint s ctx
        (Request.reenroll { csr := none, crt := crt }) st).1.err? =
      some (s.Reenroll ctx crt none "" none st).1.2) ∧
    (callsOf MakeServerKeyGenEndpoint s ctx
        (Request.serverKeyGen { csr := none, aps := aps }) st =
      [Call.ServerKeyGen ctx none aps none] ∧
     (MakeServerKeyGenEndpoint s ctx
        (Request.serverKeyGen { csr := none, aps := aps }) st).1.err? =
      some (s.ServerKeyGen ctx none aps none st).1.2.2) :=
  ⟨⟨rfl, rfl⟩, ⟨rfl, rfl⟩, ⟨rfl, rfl⟩⟩

/-! ## C4: one Service call per request -/

/-- C4: over the Service instrumented with a call log, one invocation of an
endpoint on a well-typed request extends the log by exactly one record, and that
record is for the matching Service method: Health for the Health endpoint,
CACerts for GetCAs, Enroll for Enroll, Reenroll for Reenroll, ServerKeyGen for
ServerKeyGen. This holds whatever the Service returns. -/
theorem C4_exactly_one_service_call {σ : Type} (s : Service σ) (ctx : Context)
    (st : σ) (log : List Call) :
    (∀ rq : Request, ∃ c : Call,
      (MakeHealthEndpoint (recording s) ctx rq (st, log)).2.2 = log ++ [c] ∧
        c.method = Method.Health) ∧
    (∀ rq : Request, ∃ c : Call,
      (MakeGetCAsEndpoint (recording s) ctx rq (st, log)).2.2 = log ++ [c] ∧
        c.method = Method.CACerts) ∧
    (∀ r : EnrollRequest, ∃ c : Call,
      (MakeEnrollEndpoint (recording s) ctx (Request.enroll r) (st, log)).2.2 =
          log ++ [c] ∧
        c.method = Method.Enroll) ∧
    (∀ r : ReenrollRequest, ∃ c : Call,
      (MakeReenrollEndpoint (recording s) ctx (Request.reenroll r) (st, log)).2.2 =
          log ++ [c] ∧
        c.method = Method.Reenroll) ∧
    (∀ r : ServerKeyGenRequest, ∃ c : Call,
      (MakeServerKeyGenEndpoint (recording s) ctx (Request.serverKeyGen r)
          (st, log)).2.2 = log ++ [c] ∧
        c.method = Method.ServerKeyGen) := by
  refine ⟨fun rq => ⟨Call.Health ctx, ?_, rfl⟩,
    fun rq => ⟨Call.CACerts ctx "" none, ?_, rfl⟩,
    fun r => ⟨Call.Enroll ctx r.csr r.aps r.crt none, ?_, rfl⟩,
    fun r => ⟨Call.Reenroll ctx r.crt r.csr "" none, ?_, rfl⟩,
    fun r => ⟨Call.ServerKeyGen ctx r.csr r.aps none, ?_, rfl⟩⟩
  · rw [health_recording]
  · rw [getCAs_recording]
  · rw [enroll_recording]
  · rw [reenroll_recording]
  · rw [serverKeyGen_recording]

/-! ## C5, C6: the arguments the Service receives -/

/-- C5: for every Service, context and EnrollRequest, the Enroll endpoint calls the
Service's Enroll once with exactly that context, the request's CSR, its profile
identifier and its authenticating certificate (possibly nil), and returns an
EnrollReenrollResponse whose Cert is the certificate returned by that call,
together with that call's error; the world state afterwards is the one that call
left. -/
theorem C5_enroll_forwards_request {σ : Type} (s : Service σ) (ctx : Context)
    (r : EnrollRequest) (st : σ) (log : List Call) :
    MakeEnrollEndpoint (recording s) ctx (Request.enroll r) (st, log) =
      (Outcome.ret
          (Response.enrollReenroll
            { Cert := (s.Enroll ctx r.csr r.aps r.crt none st).1.1 })
          (s.Enroll ctx r.csr r.aps r.crt none st).1.2,
        ((s.Enroll ctx r.csr r.aps r.crt none st).2,
          log ++ [Call.Enroll ctx r.csr r.aps r.crt none])) := rfl

/-- C6 fails as stated: a request carrying the profile identifier "profileA" and
the certificate crt0, handed to the GetCAs endpoint, makes the Service's CACerts
receive the empty profile identifier and a nil certificate. -/
theorem C6_getCAs_drops_profile :
    Request.aps? (Request.enroll { csr := some csr0, aps := "profileA", crt := some crt0 })
      = some "profileA" ∧
    Request.crt? (Request.enroll { csr := some csr0, aps := "profileA", crt := some crt0 })
      = some crt0 ∧
    callsOf MakeGetCAsEndpoint permissiveService ctx0
        (Request.enroll { csr := some csr0, aps := "profileA", crt := some crt0 }) 0 =
      [Call.CACerts ctx0 "" none] ∧
    callsOf MakeGetCAsEndpoint permissiveService ctx0
        (Request.enroll { csr := some csr0, aps := "profileA", crt := some crt0 }) 0 ≠
      [Call.CACerts ctx0 "profileA" (some crt0)] :=
  ⟨rfl, rfl, rfl, by decide⟩

/-- C6 as amended: the GetCAs endpoint ignores its request and, for every request,
calls the Service's CACerts once with the empty profile identifier and a nil
certificate; the Reenroll endpoint calls the Service's Reenroll once with the
request's authenticating certificate, its CSR and the fixed empty profile
identifier (a ReenrollRequest carries none). -/
theorem C6_fixed_empty_profile {σ : Type} (s : Service σ) (ctx : Context) (st : σ)
    (log : List Call) :
    (∀ rq : Request,
      (MakeGetCAsEndpoint (recording s) ctx rq (st, log)).2.2 =
        log ++ [Call.CACerts ctx "" none]) ∧
    (∀ r : ReenrollRequest,
      (MakeReenrollEndpoint (recording s) ctx (Request.reenroll r) (st, log)).2.2 =
        log ++ [Call.Reenroll ctx r.crt r.csr "" none]) :=
  ⟨fun _ => rfl, fun _ => rfl⟩

/-! ## C7, C8: what the response carries -/

/-- C7 fails as stated: over the permissive Service, whose ServerKeyGen returns a
certificate and an empty key, the ServerKeyGen endpoint returns a response with a
non-nil Cert and an empty Key. -/
theorem C7_certificate_with_empty_key :
    (MakeServerKeyGenEndpoint permissiveService ctx0
        (Request.serverKeyGen { csr := some csr0, aps := "" }) 0).1 =
      Outcome.ret (Response.serverKeyGen { Cert := some crt1, Key := [] }) none ∧
    (some crt1 : Option Certificate) ≠ none :=
  ⟨rfl, by decide⟩

/-- C7 as amended: for every Service, context, request and state, the Cert and Key
of the ServerKeyGenResponse are exactly the pair returned by the one Service
ServerKeyGen call made for the request's CSR and profile identifier, returned
together with that call's error. Only the last part is conditional: if that call
returns a non-empty key whenever it returns a non-nil certificate, then a
response with a non-nil Cert has a non-empty Key. -/
theorem C7_serverKeyGen_pair_passed_through {σ : Type} (s : Service σ) (ctx : Context)
    (r : ServerKeyGenRequest) (st : σ) (log : List Call) :
    MakeServerKeyGenEndpoint (recording s) ctx (Request.serverKeyGen r) (st, log) =
      (Outcome.ret
          (Response.serverKeyGen
            { Cert := (s.ServerKeyGen ctx r.csr r.aps none st).1.1
              Key := (s.ServerKeyGen ctx r.csr r.aps none st).1.2.1 })
          (s.ServerKeyGen ctx r.csr r.aps none st).1.2.2,
        ((s.ServerKeyGen ctx r.csr r.aps none st).2,
          log ++ [Call.ServerKeyGen ctx r.csr r.aps none])) ∧
    (MakeServerKeyGenEndpoint s ctx (Request.serverKeyGen r) st).1 =
      Outcome.ret
        (Response.serverKeyGen
          { Cert := (s.ServerKeyGen ctx r.csr r.aps none st).1.1
            Key := (s.ServerKeyGen ctx r.csr r.aps none st).1.2.1 })
        (s.ServerKeyGen ctx r.csr r.aps none st).1.2.2 ∧
    (((s.ServerKeyGen ctx r.csr r.aps none st).1.1 ≠ none →
        (s.ServerKeyGen ctx r.csr r.aps none st).1.2.1 ≠ []) →
      ∀ resp : ServerKeyGenResponse,
        (MakeServerKeyGenEndpoint s ctx (Request.serverKeyGen r) st).1.response? =
            some (Response.serverKeyGen resp) →
          resp.Cert ≠ none → resp.Key ≠ []) := by
  refine ⟨rfl, rfl, fun hs resp h => ?_⟩
  have h1 : Response.serverKeyGen
      { Cert := (s.ServerKeyGen ctx r.csr r.aps none st).1.1
        Key := (s.ServerKeyGen ctx r.csr r.aps none st).1.2.1 } =
      Response.serverKeyGen resp := Option.some.inj h
  have h2 := Response.serverKeyGen.inj h1
  rw [← h2]
  exact hs

/-- C7 witness: the strict Service on a request with a CSR and the default
profile returns its certificate and its three-byte key, and the condition on the
Service call holds there. -/
theorem C7_serverKeyGen_pair_passed_through_witness :
    (MakeServerKeyGenEndpoint strictService ctx0
        (Request.serverKeyGen { csr := some csr0, aps := "" }) 0).1 =
      Outcome.ret (Response.serverKeyGen { Cert := some crt1, Key := [1, 2, 3] }) none ∧
    ∀ resp : ServerKeyGenResponse,
      (MakeServerKeyGenEndpoint strictService ctx0
          (Request.serverKeyGen { csr := some csr0, aps := "" }) 0).1.response? =
          some (Response.serverKeyGen resp) →
        resp.Cert ≠ none → resp.Key ≠ [] :=
  ⟨(C7_serverKeyGen_pair_passed_through strictService ctx0
      { csr := some csr0, aps := "" } 0 []).2.1,
    (C7_serverKeyGen_pair_passed_through strictService ctx0
      { csr := some csr0, aps := "" } 0 []).2.2 (by decide)⟩

/-- C8 fails as stated: over the leaky Service, whose Enroll and Reenroll return a
certificate together with a non-nil error, the Enroll and Reenroll endpoints
return a non-nil error and a response whose Cert is non-nil. -/
theorem C8_error_with_certificate :
    (MakeEnrollEndpoint leakyService ctx0
        (Request.enroll { csr := some csr0, aps := "nonexistent", crt := none }) 0).1 =
      Outcome.ret (Response.enrollReenroll { Cert := some crt1 })
        (some { msg := "ProfileNotFound" }) ∧
    (MakeReenrollEndpoint leakyService ctx0
        (Request.reenroll { csr := some csr0, crt := some crt0 }) 0).1 =
      Outcome.ret (Response.enrollReenroll { Cert := some crt1 })
        (some { msg := "AuthenticationExpired" }) ∧
    (some crt1 : Option Certificate) ≠ none :=
  ⟨rfl, rfl, by decide⟩

/-- C8 as amended: for every Service, context, request and state, the Enroll and
the Reenroll endpoint each return an EnrollReenrollResponse whose Cert is exactly
the certificate the Service call returned, together with exactly that call's
error. Only the last part of each half is conditional, each on its own call: if
the Service call returns a nil certificate whenever it returns a non-nil error,
then an endpoint that returns a non-nil error returns a response with a nil
Cert. -/
theorem C8_failed_enrollment_cert {σ : Type} (s : Service σ) (ctx : Context)
    (re : EnrollRequest) (rr : ReenrollRequest) (st : σ) :
    ((MakeEnrollEndpoint s ctx (Request.enroll re) st).1 =
        Outcome.ret
          (Response.enrollReenroll
            { Cert := (s.Enroll ctx re.csr re.aps re.crt none st).1.1 })
          (s.Enroll ctx re.csr re.aps re.crt none st).1.2 ∧
      (((s.Enroll ctx re.csr re.aps re.crt none st).1.2 ≠ none →
          (s.Enroll ctx re.csr re.aps re.crt none st).1.1 = none) →
        ∀ (resp : EnrollReenrollResponse) (err : Option GoError),
          (MakeEnrollEndpoint s ctx (Request.enroll re) st).1 =
              Outcome.ret (Response.enrollReenroll resp) err →
            err ≠ none → resp.Cert = none)) ∧
    ((MakeReenrollEndpoint s ctx (Request.reenroll rr) st).1 =
        Outcome.ret
          (Response.enrollReenroll
            { Cert := (s.Reenroll ctx rr.crt rr.csr "" none st).1.1 })
          (s.Reenroll ctx rr.crt rr.csr "" none st).1.2 ∧
      (((s.Reenroll ctx rr.crt rr.csr "" none st).1.2 ≠ none →
          (s.Reenroll ctx rr.crt rr.csr "" none st).1.1 = none) →
        ∀ (resp : EnrollReenrollResponse) (err : Option GoError),
          (MakeReenrollEndpoint s ctx (Request.reenroll rr) st).1 =
              Outcome.ret (Response.enrollReenroll resp) err →
            err ≠ none → resp.Cert = none)) := by
  refine ⟨⟨rfl, fun he resp err h => ?_⟩, ⟨rfl, fun hr resp err h => ?_⟩⟩
  · have h1 : Outcome.ret
        (Response.enrollReenroll
          { Cert := (s.Enroll ctx re.csr re.aps re.crt none st).1.1 })
        (s.Enroll ctx re.csr re.aps re.crt none st).1.2 =
        Outcome.ret (Response.enrollReenroll resp) err := h
    obtain ⟨h2, h3⟩ := Outcome.ret.inj h1
    have h4 := Response.enrollReenroll.inj h2
    rw [← h3, ← h4]
    exact he
  · have h1 : Outcome.ret
        (Response.enrollReenroll
          { Cert := (s.Reenroll ctx rr.crt rr.csr "" none st).1.1 })
        (s.Reenroll ctx rr.crt rr.csr "" none st).1.2 =
        Outcome.ret (Response.enrollReenroll resp) err := h
    obtain ⟨h2, h3⟩ := Outcome.ret.inj h1
    have h4 := Response.enrollReenroll.inj h2
    rw [← h3, ← h4]
    exact hr

/-- C8 witness: the strict Service on an Enroll request for an unknown profile
and a Reenroll request without an authenticating certificate. Both calls fail
with no certificate, the condition on each Service call holds, and each endpoint
returns the error with a nil Cert. -/
theorem C8_failed_enrollment_cert_witness :
    ((MakeEnrollEndpoint strictService ctx0
          (Request.enroll { csr := some csr0, aps := "nonexistent", crt := none }) 0).1 =
        Outcome.ret (Response.enrollReenroll { Cert := none })
          (some { msg := "ProfileNotFound" }) ∧
      ∀ (resp : EnrollReenrollResponse) (err : Option GoError),
        (MakeEnrollEndpoint strictService ctx0
            (Request.enroll { csr := some csr0, aps := "nonexistent", crt := none })
            0).1 = Outcome.ret (Response.enrollReenroll resp) err →
          err ≠ none → resp.Cert = none) ∧
    ((MakeReenrollEndpoint strictService ctx0
          (Request.reenroll { csr := some csr0, crt := none }) 0).1 =
        Outcome.ret (Response.enrollReenroll { Cert := none })
          (some { msg := "AuthenticationInvalid" }) ∧
      ∀ (resp : EnrollReenrollResponse) (err : Option GoError),
        (MakeReenrollEndpoint strictService ctx0
            (Request.reenroll { csr := some csr0, crt := none }) 0).1 =
            Outcome.ret (Response.enrollReenroll resp) err →
          err ≠ none → resp.Cert = none) :=
  ⟨⟨(C8_failed_enrollment_cert strictService ctx0
        { csr := some csr0, aps := "nonexistent", crt := none }
        { csr := some csr0, crt := none } 0).1.1,
      (C8_failed_enrollment_cert strictService ctx0
        { csr := some csr0, aps := "nonexistent", crt := none }
        { csr := some csr0, crt := none } 0).1.2 (fun _ => rfl)⟩,
    ⟨(C8_failed_enrollment_cert strictService ctx0
        { csr := some csr0, aps := "nonexistent", crt := none }
        { csr := some csr0, crt := none } 0).2.1,
      (C8_failed_enrollment_cert strictService ctx0
        { csr := some csr0, aps := "nonexistent", crt := none }
        { csr := some csr0, crt := none } 0).2.2 (fun _ => rfl)⟩⟩

/-! ## C9: the registry -/

/-- C9: with opentracing.TraceServer as an abstract wrapper, MakeServerEndpoints
returns, for every Service and tracer, the registry whose five fields are the
five endpoints of that Service, each wrapped once by the wrapper for that tracer
and the span name of its own operation: "Health", "GetCAs", "Enroll", "Reenroll",
"Serverkeygen". The registry is this fixed function of the Service and the
tracer, so two constructions from the same arguments are equal. -/
theorem C9_registry_fields {σ τ : Type}
    (traceServer : τ → String → Endpoint σ → Endpoint σ) (s : Service σ) (t : τ) :
    MakeServerEndpoints traceServer s t =
      { HealthEndpoint := traceServer t "Health" (MakeHealthEndpoint s)
        GetCAsEndpoint := traceServer t "GetCAs" (MakeGetCAsEndpoint s)
        EnrollerEndpoint := traceServer t "Enroll" (MakeEnrollEndpoint s)
        ReenrollerEndpoint := traceServer t "Reenroll" (MakeReenrollEndpoint s)
        ServerKeyGenEndpoint :=
          traceServer t "Serverkeygen" (MakeServerKeyGenEndpoint s) } := rfl

/-! ## C10: the type assertion -/

/-- C10: over the Service instrumented with a call log, each of the Enroll,
Reenroll and ServerKeyGen endpoints, on any request, either is given a request
of its own type, makes its Service call and returns a response, or is given a
request of another dynamic type (nil, EmptyRequest, another request struct, any
other type), aborts with a cast failure and leaves the state and the call log
untouched. The Health and GetCAs endpoints return a response for every
request. -/
theorem C10_type_assertion {σ : Type} (s : Service σ) (ctx : Context) (st : σ)
    (log : List Call) :
    (∀ rq : Request,
      (∃ r : EnrollRequest, rq = Request.enroll r ∧
        (∃ resp err, (MakeEnrollEndpoint (recording s) ctx rq (st, log)).1 =
          Outcome.ret resp err) ∧
        (MakeEnrollEndpoint (recording s) ctx rq (st, log)).2.2 =
          log ++ [Call.Enroll ctx r.csr r.aps r.crt none]) ∨
      ((∀ r : EnrollRequest, rq ≠ Request.enroll r) ∧
        MakeEnrollEndpoint (recording s) ctx rq (st, log) =
          (Outcome.castFailure "EnrollRequest", (st, log)))) ∧
    (∀ rq : Request,
      (∃ r : ReenrollRequest, rq = Request.reenroll r ∧
        (∃ resp err, (MakeReenrollEndpoint (recording s) ctx rq (st, log)).1 =
          Outcome.ret resp err) ∧
        (MakeReenrollEndpoint (recording s) ctx rq (st, log)).2.2 =
          log ++ [Call.Reenroll ctx r.crt r.csr "" none]) ∨
      ((∀ r : ReenrollRequest, rq ≠ Request.reenroll r) ∧
        MakeReenrollEndpoint (recording s) ctx rq (st, log) =
          (Outcome.castFailure "ReenrollRequest", (st, log)))) ∧
    (∀ rq : Request,
      (∃ r : ServerKeyGenRequest, rq = Request.serverKeyGen r ∧
        (∃ resp err, (MakeServerKeyGenEndpoint (recording s) ctx rq (st, log)).1 =
          Outcome.ret resp err) ∧
        (MakeServerKeyGenEndpoint (recording s) ctx rq (st, log)).2.2 =
          log ++ [Call.ServerKeyGen ctx r.csr r.aps none]) ∨
      ((∀ r : ServerKeyGenRequest, rq ≠ Request.serverKeyGen r) ∧
        MakeServerKeyGenEndpoint (recording s) ctx rq (st, log) =
          (Outcome.castFailure "ServerKeyGenRequest", (st, log)))) ∧
    (∀ rq : Request, ∃ resp err,
      (MakeHealthEndpoint (recording s) ctx rq (st, log)).1 = Outcome.ret resp err) ∧
    (∀ rq : Request, ∃ resp err,
      (MakeGetCAsEndpoint (recording s) ctx rq (st, log)).1 = Outcome.ret resp err) := by
  refine ⟨fun rq => ?_, fun rq => ?_, fun rq => ?_, fun rq => ⟨_, _, rfl⟩,
    fun rq => ⟨_, _, rfl⟩⟩
  · cases rq with
    | enroll r => exact Or.inl ⟨r, rfl, ⟨_, _, rfl⟩, rfl⟩
    | nil => exact Or.inr ⟨fun _ h => Request.noConfusion h, rfl⟩
    | empty => exact Or.inr ⟨fun _ h => Request.noConfusion h, rfl⟩
    | reenroll _ => exact Or.inr ⟨fun _ h => Request.noConfusion h, rfl⟩
    | serverKeyGen _ => exact Or.inr ⟨fun _ h => Request.noConfusion h, rfl⟩
    | other _ => exact Or.inr ⟨fun _ h => Request.noConfusion h, rfl⟩
  · cases rq with
    | reenroll r => exact Or.inl ⟨r, rfl, ⟨_, _, rfl⟩, rfl⟩
    | nil => exact Or.inr ⟨fun _ h => Request.noConfusion h, rfl⟩
    | empty => exact Or.inr ⟨fun _ h => Request.noConfusion h, rfl⟩
    | enroll _ => exact Or.inr ⟨fun _ h => Request.noConfusion h, rfl⟩
    | serverKeyGen _ => exact Or.inr ⟨fun _ h => Request.noConfusion h, rfl⟩
    | other _ => exact Or.inr ⟨fun _ h => Request.noConfusion h, rfl⟩
  · cases rq with
    | serverKeyGen r => exact Or.inl ⟨r, rfl, ⟨_, _, rfl⟩, rfl⟩
    | nil => exact Or.inr ⟨fun _ h => Request.noConfusion h, rfl⟩
    | empty => exact Or.inr ⟨fun _ h => Request.noConfusion h, rfl⟩
    | enroll _ => exact Or.inr ⟨fun _ h => Request.noConfusion h, rfl⟩
    | reenroll _ => exact Or.inr ⟨fun _ h => Request.noConfusion h, rfl⟩
    | other _ => exact Or.inr ⟨fun _ h => Request.noConfusion h, rfl⟩

end Api
